import Mathlib

/-!
Verification of the Danesfield pipeline orchestration and geodetic-utility
layer: a shallow embedding of `danesfield/gdal_utils.py` and
`tools/run_danesfield.py`, together with theorems settling the behavioural
claims about that layer.  Machine floats are modelled as exact rationals;
Python `math.fmod` and `int()` both truncate toward zero, and the embedding
reproduces that.
-/

namespace Danesfield

/-- Truncation toward zero, the behaviour of Python `int()` on a number.
Written with `Rat.floor` so that it evaluates by reduction. -/
def truncQ (x : ℚ) : ℤ := if 0 ≤ x then x.floor else -(-x).floor

/-- C-style floating remainder as used by Python `math.fmod`:
`fmod x y = x - y * trunc (x / y)`, keeping the sign of `x`. -/
def fmodQ (x y : ℚ) : ℚ := x - y * (truncQ (x / y) : ℚ)

/-- Decidable equality for `Except`, used to evaluate concrete runs. -/
instance {ε α : Type} [DecidableEq ε] [DecidableEq α] : DecidableEq (Except ε α) := fun a b =>
  match a, b with
  | .error x, .error y => decidable_of_iff (x = y) (by simp)
  | .error _, .ok _ => isFalse (by simp)
  | .ok _, .error _ => isFalse (by simp)
  | .ok x, .ok y => decidable_of_iff (x = y) (by simp)

/-- Zone computation of `compute_utm_zone` (gdal_utils.py lines 164-189),
applied to the already-normalized longitude and latitude.  The Python local
variable `zone` stays 0 when the latitude is outside the valid band or when
the general formula `int((int(lon) + 180) / 6 + 1)` evaluates to 0. -/
def utm_zone_value (lon lat : ℚ) : ℤ :=
  if -80 ≤ lat ∧ lat ≤ 84 then
    if 72 ≤ lat ∧ 0 ≤ lon ∧ lon < 42 then
      if lon < 9 then 31 else if lon < 21 then 33 else if lon < 33 then 35 else 37
    else if 56 ≤ lat ∧ lat < 64 ∧ 0 ≤ lon ∧ lon < 12 then
      if lon < 3 then 31 else 32
    else truncQ (((truncQ lon + 180 : ℤ) : ℚ) / 6 + 1)
  else 0

/-- Body of `compute_utm_zone` after normalization: hemisphere from the sign
of the normalized latitude, and a `RuntimeError` exactly when `zone == 0`. -/
def utm_zone_core (lon lat : ℚ) : Except String (ℤ × Char) :=
  if utm_zone_value lon lat = 0 then Except.error "Invalid UTM"
  else Except.ok (utm_zone_value lon lat, if 0 < lat then 'N' else 'S')

/-- `compute_utm_zone` (gdal_utils.py lines 154-192): reduces the inputs with
`math.fmod` and then computes zone and hemisphere. -/
def compute_utm_zone (lon lat : ℚ) : Except String (ℤ × Char) :=
  utm_zone_core (fmodQ (lon + 180) 360 - 180) (fmodQ (lat + 90) 180 - 90)

/-- The six affine geotransform coefficients, `transform[0]` .. `transform[5]`
of GDAL's `GetGeoTransform` array. -/
structure GeoTransform where
  t0 : ℚ
  t1 : ℚ
  t2 : ℚ
  t3 : ℚ
  t4 : ℚ
  t5 : ℚ

/-- An open GDAL raster, as far as `gdal_bounding_box` inspects it: the
projection string (`GetProjection`, empty when absent), the stored affine
geotransform (`GetGeoTransform`), the geotransform derived from
ground-control points (`gdal.GCPsToGeoTransform`, `none` when it cannot be
derived), and the raster dimensions. -/
structure Raster where
  projection : String
  geoTransform : GeoTransform
  gcpTransform : Option GeoTransform
  rasterXSize : ℕ
  rasterYSize : ℕ

/-- One georeferenced corner: `transform[0] + p*transform[1] + l*transform[2]`
and `transform[3] + p*transform[4] + l*transform[5]` (gdal_utils.py 37-38). -/
def gt_corner (t : GeoTransform) (p l : ℚ) : ℚ × ℚ :=
  (t.t0 + p * t.t1 + l * t.t2, t.t3 + p * t.t4 + l * t.t5)

/-- The `[minX, minY, maxX, maxY]` envelope of four points
(gdal_utils.py 46-50). -/
def envelope (a b c d : ℚ × ℚ) : List ℚ :=
  [min (min (min a.1 b.1) c.1) d.1,
   min (min (min a.2 b.2) c.2) d.2,
   max (max (max a.1 b.1) c.1) d.1,
   max (max (max a.2 b.2) c.2) d.2]

/-- `gdal_bounding_box` (gdal_utils.py lines 17-50).  The numpy corner arrays
use pixels `[0, W, W, 0]` and lines `[0, 0, H, H]`; the optional `outProj`
stands for the composed `pyproj.transform(inProj, outProj, ., .)`
reprojection, which acts elementwise on the corner arrays. -/
def gdal_bounding_box (raster : Raster)
    (outProj : Option ((ℚ × ℚ) → ℚ × ℚ)) : Option (List ℚ) :=
  match (if raster.projection = "" then raster.gcpTransform
    else some raster.geoTransform) with
  | none => none
  | some t =>
    let proj : ℚ × ℚ → ℚ × ℚ := match outProj with | none => id | some f => f
    some (envelope
      (proj (gt_corner t 0 0))
      (proj (gt_corner t (raster.rasterXSize : ℚ) 0))
      (proj (gt_corner t (raster.rasterXSize : ℚ) (raster.rasterYSize : ℚ)))
      (proj (gt_corner t 0 (raster.rasterYSize : ℚ))))

/-- Accumulating scan of a maximal run of decimal digits (`\d*` in the
offset regex), returning the accumulated value, the number of digits
consumed, and the rest of the input. -/
def parseDigits (s : List Char) (v n : ℕ) : ℕ × ℕ × List Char :=
  match s with
  | [] => (v, n, [])
  | c :: rest =>
    if c.isDigit then parseDigits rest (10 * v + (c.toNat - 48)) (n + 1)
    else (v, n, c :: rest)

/-- The optional exponent `([eE][-+]?\d+)?` of the float regex: when the
digits after `e`/`E` are missing the group matches the empty string and the
input is left untouched, exactly as the regex engine does. -/
def applyExp (m : ℚ) (s : List Char) : ℚ × List Char :=
  match s with
  | [] => (m, [])
  | e :: r =>
    if e = 'e' ∨ e = 'E' then
      match (match r with
        | '-' :: r2 => (true, r2)
        | '+' :: r2 => (false, r2)
        | _ => (false, r)) with
      | (esgn, r1) =>
        match r1 with
        | [] => (m, e :: r)
        | d :: _ =>
          if d.isDigit then
            match parseDigits r1 0 0 with
            | (ev, _, r2) =>
              (if esgn then m / (10 : ℚ) ^ ev else m * (10 : ℚ) ^ ev, r2)
          else (m, e :: r)
    else (m, e :: r)

/-- The optional sign `[-+]?` of the float regex. -/
def parseSign (s : List Char) : ℚ × List Char :=
  match s with
  | '-' :: r => ((-1 : ℚ), r)
  | '+' :: r => ((1 : ℚ), r)
  | _ => ((1 : ℚ), s)

/-- The optional fractional part `(\.\d*)?` of the float regex, given the
input after the integral digits: a dot is consumed greedily together with any
digits after it. -/
def parseFrac (s : List Char) : ℚ × List Char :=
  match s with
  | '.' :: r =>
    match parseDigits r 0 0 with
    | (fv, fn, s3) => ((fv : ℚ) / (10 : ℚ) ^ fn, s3)
  | _ => (0, s)

/-- The mantissa alternative `\d+(\.\d*)?|\.\d+` of the float regex. -/
def parseMantissa (s : List Char) : Option (ℚ × List Char) :=
  match s with
  | [] => none
  | c :: r =>
    if c.isDigit then
      match parseDigits s 0 0 with
      | (ip, _, s2) =>
        match parseFrac s2 with
        | (fr, s3) => some ((ip : ℚ) + fr, s3)
    else if c = '.' then
      match r with
      | [] => none
      | d :: _ =>
        if d.isDigit then
          match parseDigits r 0 0 with
          | (fv, fn, s3) => some ((fv : ℚ) / (10 : ℚ) ^ fn, s3)
        else none
    else none

/-- Greedy match of the float regex
`[-+]?(\d+(\.\d*)?|\.\d+)([eE][-+]?\d+)?` at the head of the input,
returning the exact rational value of the matched literal and the unmatched
rest, or `none` when the regex does not match at this position. -/
def parseFloatAt (s : List Char) : Option (ℚ × List Char) :=
  match parseSign s with
  | (sgn, s1) =>
    match parseMantissa s1 with
    | none => none
    | some (mant, s3) => some (applyExp (sgn * mant) s3)

/-- Python `float()` on a captured group: surrounding blanks are stripped and
the whole remaining string must be a float literal (modelled for the numeric
fields relevant here). -/
def floatOfChars (s : List Char) : Option ℚ :=
  match parseFloatAt (((s.dropWhile (fun c => c = ' ')).reverse.dropWhile
      (fun c => c = ' ')).reverse) with
  | some (v, []) => some v
  | _ => none

/-- Match of the per-axis offset pattern built in gdal_utils.py line 131:
`list("#. offset: (float)")` with the character at index 1 replaced by the
axis letter, hence `#x offset: `, `#y offset: `, `#z offset: ` with no blank
between `#` and the axis.  `re.match` anchors at the start of the line and
ignores anything after the float. -/
def matchOffsetLine (axis : Char) (line : List Char) : Option ℚ :=
  if ('#' :: axis :: (" offset: ".data)).isPrefixOf line then
    match parseFloatAt (line.drop 11) with
    | some (v, _) => some v
    | none => none
  else none

/-- Number of characters before the first newline; `.` and `[^,]`-style
pieces of the coordinate-system regex cannot cross a newline, while a
negated class can. -/
def nlLimit (r : List Char) : ℕ :=
  match r.findIdx? (fun c => c = '\n') with
  | some i => i
  | none => r.length

/-- Match of the regex tail `.*}\n`: some `\x7d` preceded only by
non-newline characters and followed immediately by a newline. -/
def braceNl (r : List Char) : Bool :=
  (List.range (nlLimit r + 1)).any (fun j =>
    match r[j]? with
    | some c => c = '}' && (match r[j+1]? with
      | some c2 => c2 = '\n'
      | none => false)
    | none => false)

/-- Match of the regex tail `.*\].*}\n` after the last captured group. -/
def csTail (r : List Char) : Bool :=
  (List.range (nlLimit r + 1)).any (fun i =>
    match r[i]? with
    | some c => c = ']' && braceNl (r.drop (i + 1))
    | none => false)

/-- One `[^,]*, ` step of the coordinate-system regex: the segment up to the
first comma (which may be empty and may contain anything but a comma),
which must be followed by a comma and a blank. -/
def splitComma (s : List Char) : Option (List Char × List Char) :=
  match s.dropWhile (fun c => c != ',') with
  | ',' :: ' ' :: r => some (s.takeWhile (fun c => c != ','), r)
  | _ => none

/-- The deterministic part of the coordinate-system regex after ` [`:
`[^,]*, [^,]*, ([^,]*), ([^,]*), ([^,]*), .*\].*}\n`, returning the three
captured groups. -/
def csAfterBracket (b : List Char) : Option (List Char × List Char × List Char) :=
  match splitComma b with
  | none => none
  | some (_, r1) =>
    match splitComma r1 with
    | none => none
    | some (_, r2) =>
      match splitComma r2 with
      | none => none
      | some (g1, r3) =>
        match splitComma r3 with
        | none => none
        | some (g2, r4) =>
          match splitComma r4 with
          | none => none
          | some (g3, r5) => if csTail r5 then some (g1, g2, g3) else none

/-- `re.match` of the coordinate-system pattern of gdal_utils.py line 143,
`# coordinate_system: \x7b.* \[[^,]*, [^,]*, ([^,]*), ([^,]*), ([^,]*), .*\].*\x7d\n`:
after the literal prefix, the greedy `.* \[` tries the rightmost ` [`
occurrence (within the first line) first and backtracks leftwards until the
rest of the pattern matches. -/
def matchCS (line : List Char) : Option (List Char × List Char × List Char) :=
  if ("# coordinate_system: \x7b".data).isPrefixOf line then
    match line.drop ("# coordinate_system: \x7b".data).length with
    | s =>
      (List.range (nlLimit s + 1)).reverse.findSome? (fun i =>
        if (" [".data).isPrefixOf (s.drop i) then csAfterBracket (s.drop (i + 2))
        else none)
  else none

/-- Line `i` of the file as returned by Python `readline`: the line keeps its
trailing newline, and reads past the end of the file give the empty string. -/
def getLine (file : List String) (i : ℕ) : List Char :=
  match file[i]? with
  | some l => l.data
  | none => []

/-- `read_offset` (gdal_utils.py lines 115-151) on a file given as its list
of `readline` results.  The first scan reads lines 1-3 against the per-axis
patterns and stops at the first failure; the fallback to the 8th-line
coordinate-system comment happens only when the very first line failed
(`i == 0`).  `none` models the `ValueError` Python's `float()` would raise on
a non-numeric captured group in the fallback. -/
def read_offset (file : List String) : Option (ℚ × ℚ × ℚ) :=
  match matchOffsetLine 'x' (getLine file 0) with
  | none =>
    match matchCS (getLine file 7) with
    | none => some (0, 0, 0)
    | some (g1, g2, g3) =>
      match floatOfChars g1, floatOfChars g2, floatOfChars g3 with
      | some x, some y, some z => some (x, y, z)
      | _, _, _ => none
  | some v0 =>
    match matchOffsetLine 'y' (getLine file 1) with
    | none => some (v0, 0, 0)
    | some v1 =>
      match matchOffsetLine 'z' (getLine file 2) with
      | none => some (v0, v1, 0)
      | some v2 => some (v0, v1, v2)

/-- The files recorded for one modality (pan, msi or swir): the nested
dictionary of run_danesfield.py, with a key present iff the field is `some`. -/
structure ModalityFiles where
  image : Option String
  info : Option String
  rpc : Option String
deriving DecidableEq

/-- The per-collection record built in main (run_danesfield.py lines
162-169), restricted to the three modality dictionaries that the validation
and classification logic reads (the derived artifact-path fields and the
angle are stage outputs). -/
structure CollectionFiles where
  pan : ModalityFiles
  msi : ModalityFiles
  swir : ModalityFiles
deriving DecidableEq

/-- A collection record whose three modality dictionaries are all empty. -/
def emptyCollection : CollectionFiles :=
  ⟨⟨none, none, none⟩, ⟨none, none, none⟩, ⟨none, none, none⟩⟩

/-- `ensure_complete_modality` (run_danesfield.py lines 55-70): the keys
`image` and `info` must be present, and `rpc` as well when `require_rpc`. -/
def ensure_complete_modality (modality_dict : ModalityFiles)
    (require_rpc : Bool) : Bool :=
  modality_dict.image.isSome && modality_dict.info.isSome &&
    (!require_rpc || modality_dict.rpc.isSome)

/-- The completeness test of main (run_danesfield.py lines 177-180): pan and
msi both complete, each requiring rpc; swir is not checked. -/
def collection_complete (c : CollectionFiles) : Bool :=
  ensure_complete_modality c.pan true && ensure_complete_modality c.msi true

/-- The validation loop of main (run_danesfield.py lines 161-186): incomplete
collections are deleted from the mapping and their identifiers appended to
`incomplete_ids`, in iteration order. -/
def validate_collections :
    List (String × CollectionFiles) → List (String × CollectionFiles) × List String
  | [] => ([], [])
  | (p, c) :: rest =>
    match validate_collections rest with
    | (kept, incomplete_ids) =>
      if collection_complete c then ((p, c) :: kept, incomplete_ids)
      else (kept, p :: incomplete_ids)

/-- Replace the swir dictionary of a record, leaving pan and msi unchanged. -/
def setSwir (c : CollectionFiles) (m : ModalityFiles) : CollectionFiles :=
  ⟨c.pan, c.msi, m⟩

/-- One iteration of the most-nadir loop: the current best is replaced
exactly when the new angle is strictly lower (`angle < lowest_angle`);
`none` models the initial `float('inf')`. -/
def selectNadirStep (best : Option ℚ × String) (pc : String × ℚ) :
    Option ℚ × String :=
  match best.1 with
  | none => (some pc.2, pc.1)
  | some l => if pc.2 < l then (some pc.2, pc.1) else best

/-- The most-nadir selection of main (run_danesfield.py lines 256-272) over
the insertion-ordered collections annotated with their obliquity angles;
`most_nadir_collection_id` starts as the empty string. -/
def select_most_nadir (cols : List (String × ℚ)) : String :=
  (cols.foldl selectNadirStep (none, "")).2

/-- The minimum of the annotated angles, `none` for no collections. -/
def minAngle? : List (String × ℚ) → Option ℚ
  | [] => none
  | pc :: rest =>
    some (match minAngle? rest with
      | none => pc.2
      | some m => min pc.2 m)

/-- Python string containment `needle in hay`: `needle` occurs as a
contiguous substring of `hay`. -/
def isSubstr (needle hay : List Char) : Bool :=
  if needle.isPrefixOf hay then true
  else
    match hay with
    | [] => false
    | _ :: t => isSubstr needle t

/-- The conflict check of `create_working_dir` (run_danesfield.py lines
44-52) on already-resolved (`os.path.realpath`) directory strings: Python's
`in` on strings is substring containment, and a hit raises `ValueError`.
Directory creation and the timestamp-based default name are filesystem side
effects outside the model. -/
def create_working_dir (working_dir imagery_dir : String) :
    Except String String :=
  if isSubstr imagery_dir.data working_dir.data then
    Except.error "working directory is a subdirectory of the imagery directory"
  else Except.ok working_dir

/-- The claimed rejection predicate on resolved paths: the working directory
equals the imagery directory or is nested inside it. -/
def nested_or_equal (working imagery : String) : Bool :=
  working == imagery || (imagery ++ "/").data.isPrefixOf working.data

/-- Failure modes of the orchestration run: the unhandled `KeyError` a
missing dictionary key raises, and the NoUsableCollections condition the
specification names for the zero-collections case. -/
inductive RunError where
  | keyError (key : String)
  | noUsableCollections
deriving DecidableEq

/-- The stage flow of main after the validation loop (run_danesfield.py
lines 188-316, abstracted to the executed stage names and the outcome):
DSM rendering and DTM fitting run unconditionally, the per-collection loops
run once per remaining collection, and the segment-by-height stage first
looks up `collection_id_to_files[most_nadir_collection_id]` — a lookup that
raises `KeyError` when the most-nadir identifier is not a key (as with zero
collections, where it is the initial empty string). -/
def run_after_validation (cols : List (String × ℚ)) :
    List String × Except RunError Unit :=
  let stages := ["generate_dsm", "fit_dtm"]
    ++ cols.map (fun c => "orthorectify " ++ c.1)
    ++ cols.map (fun c => "pansharpen " ++ c.1)
    ++ cols.map (fun c => "msi_to_rgb " ++ c.1)
  match cols.find? (fun c => c.1 == select_most_nadir cols) with
  | none => (stages, Except.error (RunError.keyError (select_most_nadir cols)))
  | some _ => (stages ++ ["segment_by_height", "kwsemantic_segment",
      "building_segmentation", "material_classifier", "roof_geon_extraction",
      "buildings_to_dsm"], Except.ok ())

/-- The kind of file being classified, i.e. which of the three extension
lists it came from: `.ntf` imagery, `.tar` metadata, `.rpc` calibration. -/
inductive FileType where
  | image
  | info
  | rpc
deriving DecidableEq

/-- Store a path under the given key of a modality dictionary. -/
def setModalityField (m : ModalityFiles) (t : FileType) (v : String) :
    ModalityFiles :=
  match t with
  | .image => ⟨some v, m.info, m.rpc⟩
  | .info => ⟨m.image, some v, m.rpc⟩
  | .rpc => ⟨m.image, m.info, some v⟩

/-- `classify_fpaths` (run_danesfield.py lines 73-98): every path containing
the collection identifier as a substring is stored under the modality picked
by the first of the markers `-P1BS-`, `-M1BS-`, `-A1BS-` occurring in it. -/
def classify_fpaths (pfx : String) (fpaths : List String) (file_type : FileType)
    (c : CollectionFiles) : CollectionFiles :=
  fpaths.foldl (fun c fpath =>
    if isSubstr pfx.data fpath.data then
      if isSubstr ("-P1BS-").data fpath.data then
        ⟨setModalityField c.pan file_type fpath, c.msi, c.swir⟩
      else if isSubstr ("-M1BS-").data fpath.data then
        ⟨c.pan, setModalityField c.msi file_type fpath, c.swir⟩
      else if isSubstr ("-A1BS-").data fpath.data then
        ⟨c.pan, c.msi, setModalityField c.swir file_type fpath⟩
      else c
    else c) c

/-- Does the identifier regex of run_danesfield.py line 151 — two digits,
three uppercase letters, eight digits, then a hyphen — match at the head of
the input? -/
def idPatAt (s : List Char) : Bool :=
  match s with
  | d0 :: d1 :: u0 :: u1 :: u2 :: e0 :: e1 :: e2 :: e3 :: e4 :: e5 :: e6 ::
      e7 :: h :: _ =>
    d0.isDigit && d1.isDigit && u0.isUpper && u1.isUpper && u2.isUpper &&
    e0.isDigit && e1.isDigit && e2.isDigit && e3.isDigit && e4.isDigit &&
    e5.isDigit && e6.isDigit && e7.isDigit && h == '-'
  | _ => false

/-- `re.search` of the identifier regex over a full path: the leftmost match,
with the trailing hyphen of `group(0)` stripped by `rstrip('-')`. -/
def searchCollectionId : List Char → Option String
  | [] => none
  | c :: rest =>
    if idPatAt (c :: rest) then some (String.mk ((c :: rest).take 13))
    else searchCollectionId rest

/-- The identifier-collection loop of main (run_danesfield.py lines 149-156):
identifiers are searched in the ntf paths only.  The source accumulates them
in a Python `set`, whose iteration order is unspecified; the model keeps
first-occurrence order, which no per-identifier record content depends on. -/
def collect_prefixes : List String → List String
  | [] => []
  | f :: rest =>
    match searchCollectionId f.data with
    | none => collect_prefixes rest
    | some p => p :: (collect_prefixes rest).filter (fun q => q != p)

/-- The `os.walk` plus extension filter of main (run_danesfield.py lines
135-147): a tree is the list of (directory, filename) pairs it contains, the
filename is tested with `file.lower().endswith(ext)` — here at character
level, the extensions in the source being lowercase — and matches are joined
into full paths. -/
def walk_filter (tree : List (String × String)) (ext : String) : List String :=
  (tree.filter (fun rf => ext.data.isSuffixOf (rf.2.data.map Char.toLower))).map
    (fun rf => rf.1 ++ "/" ++ rf.2)

/-- The discovery-and-classification phase of main (run_danesfield.py lines
135-173): ntf and tar files from the imagery tree, rpc files from the rpc
tree, identifiers from the ntf paths, and per-identifier records classified
from the three lists (image, then rpc, then info, as in the source). -/
def build_collections (imagery rpc_tree : List (String × String)) :
    List (String × CollectionFiles) :=
  (collect_prefixes (walk_filter imagery ".ntf")).map (fun p =>
    (p, classify_fpaths p (walk_filter imagery ".tar") FileType.info
      (classify_fpaths p (walk_filter rpc_tree ".rpc") FileType.rpc
        (classify_fpaths p (walk_filter imagery ".ntf") FileType.image
          emptyCollection))))

/-- The identifier pattern as claim C10 words it — two digits, three
uppercase letters, eight digits, with no further requirement — matching at
the head of the input.  This is the specification reading, kept for
comparison with `idPatAt`. -/
def specIdPatAt (s : List Char) : Bool :=
  match s with
  | d0 :: d1 :: u0 :: u1 :: u2 :: e0 :: e1 :: e2 :: e3 :: e4 :: e5 :: e6 ::
      e7 :: _ =>
    d0.isDigit && d1.isDigit && u0.isUpper && u1.isUpper && u2.isUpper &&
    e0.isDigit && e1.isDigit && e2.isDigit && e3.isDigit && e4.isDigit &&
    e5.isDigit && e6.isDigit && e7.isDigit
  | _ => false

/-- Leftmost occurrence of the claim's identifier pattern in a file name:
the specification reading of identifier discovery, for comparison with the
code's `searchCollectionId`. -/
def spec_find_identifier : List Char → Option String
  | [] => none
  | c :: rest =>
    if specIdPatAt (c :: rest) then some (String.mk ((c :: rest).take 13))
    else spec_find_identifier rest

end Danesfield

namespace Danesfield

lemma ratFloor_eq_floor (x : ℚ) : x.floor = ⌊x⌋ := by
  rw [Rat.floor_def', ← Rat.floor_def]

lemma truncQ_eq_floor (x : ℚ) (h : 0 ≤ x) : truncQ x = ⌊x⌋ := by
  rw [truncQ, if_pos h, ratFloor_eq_floor]

lemma truncQ_eq_ceil (x : ℚ) (h : ¬0 ≤ x) : truncQ x = ⌈x⌉ := by
  rw [truncQ, if_neg h, ratFloor_eq_floor, Int.floor_neg, neg_neg]

lemma fmodQ_eq_self {x y : ℚ} (hy : 0 < y) (h0 : 0 ≤ x) (hxy : x < y) :
    fmodQ x y = x := by
  have h1 : 0 ≤ x / y := div_nonneg h0 hy.le
  have h2 : x / y < 1 := (div_lt_one hy).mpr hxy
  have h3 : truncQ (x / y) = 0 := by
    rw [truncQ_eq_floor _ h1, Int.floor_eq_zero_iff]
    exact ⟨h1, h2⟩
  rw [fmodQ, h3]
  push_cast
  ring

lemma compute_utm_zone_eq_core {lon lat : ℚ} (h1 : -180 ≤ lon) (h2 : lon < 180)
    (h3 : -90 < lat) (h4 : lat < 90) :
    compute_utm_zone lon lat = utm_zone_core lon lat := by
  rw [compute_utm_zone,
    fmodQ_eq_self (by norm_num) (by linarith) (by linarith),
    fmodQ_eq_self (by norm_num) (by linarith) (by linarith)]
  congr 1 <;> ring

lemma truncQ_bounds_lon {lon : ℚ} (h1 : -180 ≤ lon) (h2 : lon < 180) :
    -180 ≤ truncQ lon ∧ truncQ lon ≤ 179 := by
  by_cases h : 0 ≤ lon
  · rw [truncQ_eq_floor _ h]
    refine ⟨?_, ?_⟩
    · have hf : (0:ℤ) ≤ ⌊lon⌋ := Int.floor_nonneg.mpr h
      omega
    · have hf : ⌊lon⌋ < 180 := Int.floor_lt.mpr (by exact_mod_cast h2)
      omega
  · rw [truncQ_eq_ceil _ h]
    refine ⟨?_, ?_⟩
    · have hc : (-180 : ℚ) ≤ (⌈lon⌉ : ℚ) := le_trans h1 (Int.le_ceil lon)
      exact_mod_cast hc
    · have hc : ⌈lon⌉ ≤ 0 :=
        Int.ceil_le.mpr (by exact_mod_cast (le_of_lt (not_le.mp h)))
      omega

lemma zone_general_bounds {lon : ℚ} (h1 : -180 ≤ lon) (h2 : lon < 180) :
    1 ≤ truncQ (((truncQ lon + 180 : ℤ) : ℚ) / 6 + 1) ∧
    truncQ (((truncQ lon + 180 : ℤ) : ℚ) / 6 + 1) ≤ 60 := by
  obtain ⟨ha, hb⟩ := truncQ_bounds_lon h1 h2
  have ht0 : (0:ℚ) ≤ ((truncQ lon + 180 : ℤ) : ℚ) := by
    exact_mod_cast (by omega : (0:ℤ) ≤ truncQ lon + 180)
  have ht1 : ((truncQ lon + 180 : ℤ) : ℚ) ≤ 359 := by
    exact_mod_cast (by omega : (truncQ lon + 180 : ℤ) ≤ 359)
  have hq0 : (1:ℚ) ≤ ((truncQ lon + 180 : ℤ) : ℚ) / 6 + 1 := by
    have : (0:ℚ) ≤ ((truncQ lon + 180 : ℤ) : ℚ) / 6 := by positivity
    linarith
  have hq1 : ((truncQ lon + 180 : ℤ) : ℚ) / 6 + 1 < 61 := by
    have : ((truncQ lon + 180 : ℤ) : ℚ) / 6 < 60 := by
      rw [div_lt_iff₀ (by norm_num : (0:ℚ) < 6)]
      linarith
    linarith
  have htr : truncQ (((truncQ lon + 180 : ℤ) : ℚ) / 6 + 1) =
      ⌊((truncQ lon + 180 : ℤ) : ℚ) / 6 + 1⌋ :=
    truncQ_eq_floor _ (by linarith)
  refine ⟨?_, ?_⟩
  · rw [htr]
    exact Int.le_floor.mpr (by exact_mod_cast hq0)
  · rw [htr]
    have : ⌊((truncQ lon + 180 : ℤ) : ℚ) / 6 + 1⌋ < 61 :=
      Int.floor_lt.mpr (by exact_mod_cast hq1)
    omega

lemma utm_zone_core_band1 {lon lat : ℚ} (hl1 : 72 ≤ lat) (hl2 : lat ≤ 84)
    (ho1 : 0 ≤ lon) (ho2 : lon < 42) :
    utm_zone_core lon lat =
      Except.ok ((if lon < 9 then 31 else if lon < 21 then 33
        else if lon < 33 then 35 else 37 : ℤ), 'N') := by
  have hv : utm_zone_value lon lat =
      (if lon < 9 then 31 else if lon < 21 then 33
        else if lon < 33 then 35 else 37 : ℤ) := by
    rw [utm_zone_value, if_pos ⟨by linarith, hl2⟩, if_pos ⟨hl1, ho1, ho2⟩]
  have hz : (if lon < 9 then 31 else if lon < 21 then 33
      else if lon < 33 then 35 else 37 : ℤ) ≠ 0 := by
    split_ifs <;> norm_num
  rw [utm_zone_core, hv, if_neg hz, if_pos (by linarith : (0:ℚ) < lat)]

lemma utm_zone_core_band2 {lon lat : ℚ} (hl1 : 56 ≤ lat) (hl2 : lat < 64)
    (ho1 : 0 ≤ lon) (ho2 : lon < 12) :
    utm_zone_core lon lat =
      Except.ok ((if lon < 3 then 31 else 32 : ℤ), 'N') := by
  have hb1 : ¬(72 ≤ lat ∧ 0 ≤ lon ∧ lon < 42) := fun h => by linarith [h.1]
  have hv : utm_zone_value lon lat = (if lon < 3 then 31 else 32 : ℤ) := by
    rw [utm_zone_value, if_pos ⟨by linarith, by linarith⟩, if_neg hb1,
      if_pos ⟨hl1, hl2, ho1, ho2⟩]
  have hz : (if lon < 3 then 31 else 32 : ℤ) ≠ 0 := by split_ifs <;> norm_num
  rw [utm_zone_core, hv, if_neg hz, if_pos (by linarith : (0:ℚ) < lat)]

lemma utm_zone_core_general {lon lat : ℚ} (hl1 : -80 ≤ lat) (hl2 : lat ≤ 84)
    (ho1 : -180 ≤ lon) (ho2 : lon < 180)
    (hb1 : ¬(72 ≤ lat ∧ 0 ≤ lon ∧ lon < 42))
    (hb2 : ¬(56 ≤ lat ∧ lat < 64 ∧ 0 ≤ lon ∧ lon < 12)) :
    utm_zone_core lon lat =
      Except.ok (truncQ (((truncQ lon + 180 : ℤ) : ℚ) / 6 + 1),
        if 0 < lat then 'N' else 'S') := by
  have hv : utm_zone_value lon lat = truncQ (((truncQ lon + 180 : ℤ) : ℚ) / 6 + 1) := by
    rw [utm_zone_value, if_pos ⟨hl1, hl2⟩, if_neg hb1, if_neg hb2]
  obtain ⟨h1, _⟩ := zone_general_bounds ho1 ho2
  rw [utm_zone_core, hv, if_neg (by omega)]

/-- Claim C1 is false as stated.  The spec example `utmZone(25,75) = 33`
disagrees with the code, which returns zone 35 at that point; for the
fractional negative longitude -1/2 the claimed formula
`floor((floor(longitude) + 180) / 6) + 1` gives 30 while the code (whose
Python `int()` truncates toward zero) returns 31; and for longitude 200 the
claimed formula applied to the input longitude gives 64 while the code
reduces the longitude first and returns 4. -/
theorem compute_utm_zone_claim_C1_false :
    compute_utm_zone 25 75 = Except.ok (35, 'N') ∧ (35 : ℤ) ≠ 33
    ∧ compute_utm_zone (-1/2) 50 = Except.ok (31, 'N')
    ∧ (⌊((⌊(-1/2 : ℚ)⌋ : ℚ) + 180) / 6⌋ + 1 : ℤ) = 30 ∧ (31 : ℤ) ≠ 30
    ∧ compute_utm_zone 200 50 = Except.ok (4, 'N')
    ∧ (⌊((⌊(200 : ℚ)⌋ : ℚ) + 180) / 6⌋ + 1 : ℤ) = 64 ∧ (4 : ℤ) ≠ 64 := by
  refine ⟨?_, ?_, ?_, ?_, ?_, ?_, ?_, ?_⟩ <;>
    norm_num [compute_utm_zone, utm_zone_core, utm_zone_value, fmodQ, truncQ,
      ratFloor_eq_floor]

/-- Claim C1 (amended): for latitude in [-80,84), the two exception bands
behave as stated — latitude in [72,84) with longitude in [0,42) gives zone
31/33/35/37 at the thresholds 9/21/33, and latitude in [56,64) with longitude
in [0,12) gives 31 below longitude 3 and 32 otherwise; for longitude in
[-180,180) outside both bands the zone is `int((int(lon) + 180) / 6 + 1)`
with `int()` truncating toward zero; and the boundary examples are
`utmZone(5,75) = 31`, `utmZone(25,75) = 35`, `utmZone(1,60) = 31`,
`utmZone(5,60) = 32`. -/
theorem compute_utm_zone_exception_bands :
    (∀ lon lat : ℚ, -80 ≤ lat → lat < 84 → 72 ≤ lat → 0 ≤ lon → lon < 42 →
      compute_utm_zone lon lat =
        Except.ok ((if lon < 9 then 31 else if lon < 21 then 33
          else if lon < 33 then 35 else 37 : ℤ), 'N'))
    ∧ (∀ lon lat : ℚ, 56 ≤ lat → lat < 64 → 0 ≤ lon → lon < 12 →
      compute_utm_zone lon lat =
        Except.ok ((if lon < 3 then 31 else 32 : ℤ), 'N'))
    ∧ (∀ lon lat : ℚ, -80 ≤ lat → lat < 84 → -180 ≤ lon → lon < 180 →
      ¬(72 ≤ lat ∧ 0 ≤ lon ∧ lon < 42) →
      ¬(56 ≤ lat ∧ lat < 64 ∧ 0 ≤ lon ∧ lon < 12) →
      compute_utm_zone lon lat =
        Except.ok (truncQ (((truncQ lon + 180 : ℤ) : ℚ) / 6 + 1),
          if 0 < lat then 'N' else 'S'))
    ∧ compute_utm_zone 5 75 = Except.ok (31, 'N')
    ∧ compute_utm_zone 25 75 = Except.ok (35, 'N')
    ∧ compute_utm_zone 1 60 = Except.ok (31, 'N')
    ∧ compute_utm_zone 5 60 = Except.ok (32, 'N') := by
  refine ⟨?_, ?_, ?_, ?_, ?_, ?_, ?_⟩
  · intro lon lat h1 h2 h3 h4 h5
    rw [compute_utm_zone_eq_core (by linarith) (by linarith) (by linarith) (by linarith)]
    exact utm_zone_core_band1 h3 (by linarith) h4 h5
  · intro lon lat h1 h2 h3 h4
    rw [compute_utm_zone_eq_core (by linarith) (by linarith) (by linarith) (by linarith)]
    exact utm_zone_core_band2 h1 h2 h3 h4
  · intro lon lat h1 h2 h3 h4 hb1 hb2
    rw [compute_utm_zone_eq_core (by linarith) (by linarith) (by linarith) (by linarith)]
    exact utm_zone_core_general h1 (by linarith) h3 h4 hb1 hb2
  all_goals
    norm_num [compute_utm_zone, utm_zone_core, utm_zone_value, fmodQ, truncQ,
      ratFloor_eq_floor]

/-- Witness for the amended claim C1: each universally quantified part applied
at a concrete point with its hypotheses discharged. -/
theorem compute_utm_zone_exception_bands_witness :
    compute_utm_zone 10 80 = Except.ok (33, 'N')
    ∧ compute_utm_zone 7 60 = Except.ok (32, 'N')
    ∧ compute_utm_zone 100 50 = Except.ok (47, 'N') := by
  refine ⟨?_, ?_, ?_⟩
  · have h := compute_utm_zone_exception_bands.1 10 80 (by norm_num) (by norm_num)
      (by norm_num) (by norm_num) (by norm_num)
    simpa using h
  · have h := compute_utm_zone_exception_bands.2.1 7 60 (by norm_num) (by norm_num)
      (by norm_num) (by norm_num)
    simpa using h
  · have h := compute_utm_zone_exception_bands.2.2.1 100 50 (by norm_num) (by norm_num)
      (by norm_num) (by norm_num) (by norm_num) (by norm_num)
    rw [h]
    norm_num [truncQ, ratFloor_eq_floor]

/-- Claim C2 is false as stated.  At input latitude 84 — outside the claimed
valid band [-80,84) — the code still returns a zone instead of failing; and
at longitude -200 the `math.fmod` reduction keeps the sign of its argument,
so the longitude is not normalized onto (-180,180] and the returned zone -2
is outside [1,60]. -/
theorem compute_utm_zone_claim_C2_false :
    compute_utm_zone 5 84 = Except.ok (31, 'N')
    ∧ compute_utm_zone (-200) 50 = Except.ok (-2, 'N')
    ∧ ¬(1 ≤ (-2 : ℤ) ∧ (-2 : ℤ) ≤ 60)
    ∧ fmodQ ((-200 : ℚ) + 180) 360 - 180 = -200 := by
  refine ⟨?_, ?_, ?_, ?_⟩ <;>
    norm_num [compute_utm_zone, utm_zone_core, utm_zone_value, fmodQ, truncQ,
      ratFloor_eq_floor]

/-- Claim C2 (amended): `compute_utm_zone` reduces its inputs with the
sign-preserving `math.fmod` (so inputs with longitude in [-180,180) and
latitude in [-80,84] are left unchanged, and the reduction does not always
land in the claimed intervals (-180,180] and (-90,90]).  For longitude in
[-180,180) and latitude in [-80,84] it returns a zone in [1,60] together with
hemisphere N exactly when the normalized latitude is positive and S
otherwise; whenever the normalized latitude lies outside [-80,84] it fails
with the invalid-UTM error. -/
theorem compute_utm_zone_valid_band :
    (∀ lon lat : ℚ, -180 ≤ lon → lon < 180 → -80 ≤ lat → lat ≤ 84 →
      ∃ z : ℤ, compute_utm_zone lon lat =
          Except.ok (z, if 0 < lat then 'N' else 'S') ∧ 1 ≤ z ∧ z ≤ 60)
    ∧ (∀ lon lat : ℚ,
      ¬(-80 ≤ fmodQ (lat + 90) 180 - 90 ∧ fmodQ (lat + 90) 180 - 90 ≤ 84) →
      compute_utm_zone lon lat = Except.error "Invalid UTM") := by
  constructor
  · intro lon lat h1 h2 h3 h4
    rw [compute_utm_zone_eq_core h1 h2 (by linarith) (by linarith)]
    by_cases hb1 : 72 ≤ lat ∧ 0 ≤ lon ∧ lon < 42
    · refine ⟨(if lon < 9 then 31 else if lon < 21 then 33
        else if lon < 33 then 35 else 37 : ℤ), ?_, ?_, ?_⟩
      · rw [utm_zone_core_band1 hb1.1 h4 hb1.2.1 hb1.2.2,
          if_pos (show (0:ℚ) < lat by linarith [hb1.1])]
      · split_ifs <;> norm_num
      · split_ifs <;> norm_num
    · by_cases hb2 : 56 ≤ lat ∧ lat < 64 ∧ 0 ≤ lon ∧ lon < 12
      · refine ⟨(if lon < 3 then 31 else 32 : ℤ), ?_, ?_, ?_⟩
        · rw [utm_zone_core_band2 hb2.1 hb2.2.1 hb2.2.2.1 hb2.2.2.2,
            if_pos (show (0:ℚ) < lat by linarith [hb2.1])]
        · split_ifs <;> norm_num
        · split_ifs <;> norm_num
      · exact ⟨truncQ (((truncQ lon + 180 : ℤ) : ℚ) / 6 + 1),
          utm_zone_core_general h3 h4 h1 h2 hb1 hb2,
          (zone_general_bounds h1 h2).1, (zone_general_bounds h1 h2).2⟩
  · intro lon lat h
    have hv : utm_zone_value (fmodQ (lon + 180) 360 - 180)
        (fmodQ (lat + 90) 180 - 90) = 0 := by
      rw [utm_zone_value, if_neg h]
    rw [compute_utm_zone, utm_zone_core, if_pos hv]

/-- Witness for the amended claim C2: both parts applied at concrete points
with the hypotheses discharged. -/
theorem compute_utm_zone_valid_band_witness :
    (∃ z : ℤ, compute_utm_zone 5 50 = Except.ok (z, 'N') ∧ 1 ≤ z ∧ z ≤ 60)
    ∧ compute_utm_zone 0 89 = Except.error "Invalid UTM" := by
  constructor
  · obtain ⟨z, hz, hz1, hz2⟩ := compute_utm_zone_valid_band.1 5 50 (by norm_num)
      (by norm_num) (by norm_num) (by norm_num)
    rw [if_pos (by norm_num : (0:ℚ) < 50)] at hz
    exact ⟨z, hz, hz1, hz2⟩
  · exact compute_utm_zone_valid_band.2 0 89
      (by norm_num [fmodQ, truncQ, ratFloor_eq_floor])

/-- Claim C3 (confirmed): for a raster with a stored projection the bounding
box is the min/max envelope of the four corners obtained from pixel
coordinates 0, W, W, 0 and line coordinates 0, 0, H, H through the six
geotransform coefficients, with every corner reprojected when a target CRS is
given; and for origin (0,0), pixel size (1,-1), size 10 by 10 and no
reprojection the result is [0,-10,10,0]. -/
theorem gdal_bounding_box_corners :
    (∀ (r : Raster) (f : (ℚ × ℚ) → ℚ × ℚ), r.projection ≠ "" →
      gdal_bounding_box r (some f) =
        some (envelope
          (f (gt_corner r.geoTransform 0 0))
          (f (gt_corner r.geoTransform (r.rasterXSize : ℚ) 0))
          (f (gt_corner r.geoTransform (r.rasterXSize : ℚ) (r.rasterYSize : ℚ)))
          (f (gt_corner r.geoTransform 0 (r.rasterYSize : ℚ)))))
    ∧ (∀ r : Raster, r.projection ≠ "" →
      gdal_bounding_box r none =
        some (envelope
          (gt_corner r.geoTransform 0 0)
          (gt_corner r.geoTransform (r.rasterXSize : ℚ) 0)
          (gt_corner r.geoTransform (r.rasterXSize : ℚ) (r.rasterYSize : ℚ))
          (gt_corner r.geoTransform 0 (r.rasterYSize : ℚ))))
    ∧ gdal_bounding_box ⟨"EPSG:32616", ⟨0, 1, 0, 0, 0, -1⟩, none, 10, 10⟩ none
        = some [0, -10, 10, 0] := by
  refine ⟨?_, ?_, ?_⟩
  · intro r f h
    simp [gdal_bounding_box, h]
  · intro r h
    simp [gdal_bounding_box, h]
  · have hne : ¬("EPSG:32616" : String) = "" := by simp
    norm_num [gdal_bounding_box, hne, envelope, gt_corner, min_def, max_def]

/-- Witness for claim C3: the two universally quantified parts applied to a
concrete raster (and a concrete reprojection that swaps coordinates). -/
theorem gdal_bounding_box_corners_witness :
    gdal_bounding_box ⟨"EPSG:4326", ⟨100, 2, 0, 200, 0, -3⟩, none, 4, 5⟩ none
      = some [100, 185, 108, 200]
    ∧ gdal_bounding_box ⟨"EPSG:4326", ⟨100, 2, 0, 200, 0, -3⟩, none, 4, 5⟩
        (some (fun q => (q.2, q.1)))
      = some [185, 100, 200, 108] := by
  constructor
  · have h := gdal_bounding_box_corners.2.1
      ⟨"EPSG:4326", ⟨100, 2, 0, 200, 0, -3⟩, none, 4, 5⟩ (by simp)
    rw [h]
    norm_num [envelope, gt_corner, min_def, max_def]
  · have h := gdal_bounding_box_corners.1
      ⟨"EPSG:4326", ⟨100, 2, 0, 200, 0, -3⟩, none, 4, 5⟩ (fun q => (q.2, q.1))
      (by simp)
    rw [h]
    norm_num [envelope, gt_corner, min_def, max_def]

/-- Claim C4 (confirmed): a raster with no stored projection and no
geotransform derivable from ground-control points produces no bounding box
(the Python function reports the missing georeference and returns None). -/
theorem gdal_bounding_box_missing_georeference :
    ∀ (r : Raster) (outProj : Option ((ℚ × ℚ) → ℚ × ℚ)),
      r.projection = "" → r.gcpTransform = none →
      gdal_bounding_box r outProj = none := by
  intro r p h1 h2
  simp [gdal_bounding_box, h1, h2]

/-- Witness for claim C4 at a concrete raster with empty projection and no
GCP-derived geotransform. -/
theorem gdal_bounding_box_missing_georeference_witness :
    gdal_bounding_box ⟨"", ⟨0, 1, 0, 0, 0, 1⟩, none, 3, 3⟩ none = none :=
  gdal_bounding_box_missing_georeference ⟨"", ⟨0, 1, 0, 0, 0, 1⟩, none, 3, 3⟩
    none rfl rfl

/-- Claim C5 is false as stated: the per-axis pattern of the code is built
from `list("#. offset: ...")` with index 1 replaced by the axis letter, so it
reads `#x offset:` with no blank after `#`; on the claimed header whose lines
start `# x offset: ...` the first scan fails at line 1 and the
coordinate-system fallback finds nothing on the (empty) 8th line, so the
result is (0,0,0) instead of the three claimed offsets. -/
theorem read_offset_claim_C5_false :
    read_offset ["# x offset: 747594.676221\n", "# y offset: 4407371.835686\n",
      "# z offset: 225.038274\n"] = some (0, 0, 0)
    ∧ (0 : ℚ) ≠ 747594676221/1000000 := by
  constructor
  · simp +decide [read_offset, matchOffsetLine, matchCS, getLine]
  · norm_num

/-- Claim C5 (amended): the axis patterns have no blank between `#` and the
axis letter.  A header whose first three lines are `#x offset: 747594.676221`,
`#y offset: 4407371.835686`, `#z offset: 225.038274` yields exactly those
three values; a header whose first line does not match the x pattern but
whose 8th line is a well-formed coordinate-system comment yields the three
numeric fields after the zone descriptor; a header matching neither encoding
yields (0,0,0) without error; and a line failing its axis pattern stops the
first scan, leaving the remaining offsets at 0. -/
theorem read_offset_spec :
    read_offset ["#x offset: 747594.676221\n", "#y offset: 4407371.835686\n",
        "#z offset: 225.038274\n"]
      = some (747594676221/1000000, 4407371835686/1000000, 225038274/1000000)
    ∧ read_offset ["a\n", "b\n", "c\n", "d\n", "e\n", "f\n", "g\n",
        "# coordinate_system: \x7b\"parameters\": [\"wgs84\", \"UTM zone 16N\", 747594.6762214857, 4407371.835685772, 225.03827424185408, 0, 0, 0, 0, 0], \"type\": \"EPSG\"\x7d\n"]
      = some (7475946762214857/10000000000, 4407371835685772/1000000000,
          22503827424185408/100000000000000)
    ∧ read_offset ["hello\n"] = some (0, 0, 0)
    ∧ (∀ (file : List String) (v0 : ℚ),
        matchOffsetLine 'x' (getLine file 0) = some v0 →
        matchOffsetLine 'y' (getLine file 1) = none →
        read_offset file = some (v0, 0, 0))
    ∧ (∀ (file : List String) (v0 v1 : ℚ),
        matchOffsetLine 'x' (getLine file 0) = some v0 →
        matchOffsetLine 'y' (getLine file 1) = some v1 →
        matchOffsetLine 'z' (getLine file 2) = none →
        read_offset file = some (v0, v1, 0)) := by
  refine ⟨?_, ?_, ?_, ?_, ?_⟩
  · simp +decide [read_offset, matchOffsetLine, parseFloatAt, parseSign,
      parseMantissa, parseFrac, parseDigits, applyExp, getLine]
    norm_num
  · have hx : matchOffsetLine 'x' (getLine ["a\n", "b\n", "c\n", "d\n", "e\n",
        "f\n", "g\n",
        "# coordinate_system: \x7b\"parameters\": [\"wgs84\", \"UTM zone 16N\", 747594.6762214857, 4407371.835685772, 225.03827424185408, 0, 0, 0, 0, 0], \"type\": \"EPSG\"\x7d\n"] 0)
        = none := by decide
    have hcs : matchCS (getLine ["a\n", "b\n", "c\n", "d\n", "e\n", "f\n", "g\n",
        "# coordinate_system: \x7b\"parameters\": [\"wgs84\", \"UTM zone 16N\", 747594.6762214857, 4407371.835685772, 225.03827424185408, 0, 0, 0, 0, 0], \"type\": \"EPSG\"\x7d\n"] 7)
        = some (("747594.6762214857").data, ("4407371.835685772").data,
            ("225.03827424185408").data) := by decide
    have hg1 : floatOfChars ("747594.6762214857").data
        = some (7475946762214857/10000000000) := by
      simp +decide [floatOfChars, parseFloatAt, parseSign, parseMantissa,
        parseFrac, parseDigits, applyExp]
      norm_num
    have hg2 : floatOfChars ("4407371.835685772").data
        = some (4407371835685772/1000000000) := by
      simp +decide [floatOfChars, parseFloatAt, parseSign, parseMantissa,
        parseFrac, parseDigits, applyExp]
      norm_num
    have hg3 : floatOfChars ("225.03827424185408").data
        = some (22503827424185408/100000000000000) := by
      simp +decide [floatOfChars, parseFloatAt, parseSign, parseMantissa,
        parseFrac, parseDigits, applyExp]
      norm_num
    simp only [read_offset, hx, hcs, hg1, hg2, hg3]
  · simp +decide [read_offset, matchOffsetLine, matchCS, getLine]
  · intro file v0 h1 h2
    simp only [read_offset, h1, h2]
  · intro file v0 v1 h1 h2 h3
    simp only [read_offset, h1, h2, h3]

/-- Witness for the amended claim C5: the stop-at-first-failure parts applied
to concrete headers with the hypotheses discharged. -/
theorem read_offset_spec_witness :
    read_offset ["#x offset: 1.5\n", "junk\n", "#z offset: 2\n"]
      = some (3/2, 0, 0)
    ∧ read_offset ["#x offset: 1.5\n", "#y offset: 2.5\n", "junk\n"]
      = some (3/2, 5/2, 0) := by
  constructor
  · have hx : matchOffsetLine 'x'
        (getLine ["#x offset: 1.5\n", "junk\n", "#z offset: 2\n"] 0)
        = some (3/2) := by
      simp +decide [matchOffsetLine, parseFloatAt, parseSign, parseMantissa,
        parseFrac, parseDigits, applyExp, getLine]
      norm_num
    have hy : matchOffsetLine 'y'
        (getLine ["#x offset: 1.5\n", "junk\n", "#z offset: 2\n"] 1)
        = none := by decide
    exact read_offset_spec.2.2.2.1 _ (3/2) hx hy
  · have hx : matchOffsetLine 'x'
        (getLine ["#x offset: 1.5\n", "#y offset: 2.5\n", "junk\n"] 0)
        = some (3/2) := by
      simp +decide [matchOffsetLine, parseFloatAt, parseSign, parseMantissa,
        parseFrac, parseDigits, applyExp, getLine]
      norm_num
    have hy : matchOffsetLine 'y'
        (getLine ["#x offset: 1.5\n", "#y offset: 2.5\n", "junk\n"] 1)
        = some (5/2) := by
      simp +decide [matchOffsetLine, parseFloatAt, parseSign, parseMantissa,
        parseFrac, parseDigits, applyExp, getLine]
      norm_num
    have hz : matchOffsetLine 'z'
        (getLine ["#x offset: 1.5\n", "#y offset: 2.5\n", "junk\n"] 2)
        = none := by decide
    exact read_offset_spec.2.2.2.2 _ (3/2) (5/2) hx hy hz

lemma collection_complete_iff (c : CollectionFiles) :
    collection_complete c = true ↔
      (c.pan.image.isSome ∧ c.pan.info.isSome ∧ c.pan.rpc.isSome ∧
       c.msi.image.isSome ∧ c.msi.info.isSome ∧ c.msi.rpc.isSome) := by
  simp only [collection_complete, ensure_complete_modality, Bool.not_true,
    Bool.false_or, Bool.and_eq_true]
  tauto

lemma collection_complete_setSwir (c : CollectionFiles) (m : ModalityFiles) :
    collection_complete (setSwir c m) = collection_complete c := rfl

lemma validate_collections_cons (p : String) (c : CollectionFiles)
    (rest : List (String × CollectionFiles)) :
    validate_collections ((p, c) :: rest) =
      if collection_complete c then
        ((p, c) :: (validate_collections rest).1, (validate_collections rest).2)
      else ((validate_collections rest).1, p :: (validate_collections rest).2) := by
  simp only [validate_collections]

/-- Claim C6 (confirmed): the validation loop excludes exactly the
identifiers of collections whose pan or msi modality is missing image, info
or rpc (rpc being required for both in the pipeline), records them on the
side list, and never excludes a collection on account of its swir files. -/
theorem validate_collections_excludes_incomplete :
    (∀ (cols : List (String × CollectionFiles)) (p : String),
      p ∈ (validate_collections cols).2 ↔
        ∃ c : CollectionFiles, (p, c) ∈ cols ∧
          ¬(c.pan.image.isSome ∧ c.pan.info.isSome ∧ c.pan.rpc.isSome ∧
            c.msi.image.isSome ∧ c.msi.info.isSome ∧ c.msi.rpc.isSome))
    ∧ (∀ (cols : List (String × CollectionFiles)) (m : ModalityFiles),
      (validate_collections (cols.map (fun pc => (pc.1, setSwir pc.2 m)))).2 =
        (validate_collections cols).2) := by
  constructor
  · intro cols p
    induction cols with
    | nil => simp [validate_collections]
    | cons pc rest ih =>
      obtain ⟨q, c⟩ := pc
      rw [validate_collections_cons]
      by_cases hc : collection_complete c
      · rw [if_pos hc]
        rw [ih]
        constructor
        · rintro ⟨c', hmem, hnp⟩
          exact ⟨c', List.mem_cons_of_mem _ hmem, hnp⟩
        · rintro ⟨c', hmem, hnp⟩
          rcases List.mem_cons.mp hmem with h | h
          · injection h with h3 h4
            subst h4
            exact absurd ((collection_complete_iff _).mp hc) hnp
          · exact ⟨c', h, hnp⟩
      · rw [if_neg hc]
        have hgoal : p ∈ q :: (validate_collections rest).2 ↔
            p = q ∨ p ∈ (validate_collections rest).2 := List.mem_cons
        rw [hgoal, ih]
        constructor
        · rintro (h | ⟨c', hmem, hnp⟩)
          · subst h
            exact ⟨c, List.mem_cons_self _ _,
              fun hP => absurd ((collection_complete_iff c).mpr hP) hc⟩
          · exact ⟨c', List.mem_cons_of_mem _ hmem, hnp⟩
        · rintro ⟨c', hmem, hnp⟩
          rcases List.mem_cons.mp hmem with h | h
          · injection h with h3 h4
            exact Or.inl h3
          · exact Or.inr ⟨c', h, hnp⟩
  · intro cols m
    induction cols with
    | nil => rfl
    | cons pc rest ih =>
      obtain ⟨q, c⟩ := pc
      simp only [List.map_cons]
      rw [validate_collections_cons, validate_collections_cons,
        collection_complete_setSwir]
      by_cases hc : collection_complete c
      · rw [if_pos hc, if_pos hc]
        exact ih
      · rw [if_neg hc, if_neg hc]
        exact congrArg (List.cons q) ih

/-- Claim C8 is right and the code is wrong (code bug): the conflict check
uses Python substring containment on the resolved paths, so the sibling
directory `/a/bc` of the imagery directory `/a/b` — neither equal to it nor
nested inside it — is rejected, contradicting the docstring of
`create_working_dir`, which promises a `ValueError` only when the working
directory is a subdirectory of the imagery directory.  Genuinely nested
directories are rejected and substring-free siblings accepted. -/
theorem create_working_dir_substring_bug :
    create_working_dir "/a/bc" "/a/b" =
      Except.error "working directory is a subdirectory of the imagery directory"
    ∧ nested_or_equal "/a/bc" "/a/b" = false
    ∧ create_working_dir "/a/b/c" "/a/b" =
      Except.error "working directory is a subdirectory of the imagery directory"
    ∧ create_working_dir "/a/b" "/a/b" =
      Except.error "working directory is a subdirectory of the imagery directory"
    ∧ create_working_dir "/data/out" "/a/b" = Except.ok "/data/out" := by
  refine ⟨?_, ?_, ?_, ?_, ?_⟩ <;> decide

lemma minAngle?_le (cols : List (String × ℚ)) :
    ∀ m : ℚ, minAngle? cols = some m → ∀ x ∈ cols, m ≤ x.2 := by
  induction cols with
  | nil => intro m h; simp [minAngle?] at h
  | cons pc rest ih =>
    intro m h x hx
    simp only [minAngle?] at h
    injection h with h'
    rcases hrest : minAngle? rest with _ | m' <;> rw [hrest] at h'
    · rcases List.mem_cons.mp hx with hx1 | hx1
      · rw [hx1, ← h']
      · cases rest with
        | nil => simp at hx1
        | cons y t => simp [minAngle?] at hrest
    · rcases List.mem_cons.mp hx with hx1 | hx1
      · rw [hx1, ← h']
        exact min_le_left _ _
      · calc m = min pc.2 m' := h'.symm
          _ ≤ m' := min_le_right _ _
          _ ≤ x.2 := ih m' hrest x hx1

lemma foldl_nadir_no_update (cols : List (String × ℚ)) :
    ∀ (l : ℚ) (id : String), (∀ x ∈ cols, l ≤ x.2) →
      cols.foldl selectNadirStep (some l, id) = (some l, id) := by
  induction cols with
  | nil => intro l id _; rfl
  | cons pc rest ih =>
    intro l id hall
    rw [List.foldl_cons]
    have hstep : selectNadirStep (some l, id) pc = (some l, id) := by
      simp only [selectNadirStep]
      rw [if_neg (not_lt.mpr (hall pc (List.mem_cons_self _ _)))]
    rw [hstep]
    exact ih l id (fun x hx => hall x (List.mem_cons_of_mem _ hx))

lemma foldl_nadir_update (cols : List (String × ℚ)) :
    ∀ (l : ℚ) (id : String) (m : ℚ), minAngle? cols = some m → m < l →
      ∃ pc, cols.find? (fun x => x.2 == m) = some pc ∧
        cols.foldl selectNadirStep (some l, id) = (some m, pc.1) := by
  induction cols with
  | nil => intro l id m h; simp [minAngle?] at h
  | cons pc rest ih =>
    intro l id m h hm
    simp only [minAngle?] at h
    injection h with h'
    rw [List.foldl_cons]
    rcases hrest : minAngle? rest with _ | m' <;> rw [hrest] at h'
    · have h2 : pc.2 = m := by rw [← h']
      cases rest with
      | cons y t => simp [minAngle?] at hrest
      | nil =>
        refine ⟨pc, ?_, ?_⟩
        · rw [List.find?_cons_of_pos _ (by simp [h2])]
        · have hstep : selectNadirStep (some l, id) pc = (some pc.2, pc.1) := by
            simp only [selectNadirStep]
            rw [if_pos (show pc.2 < l by rw [h2]; exact hm)]
          rw [hstep, List.foldl_nil, h2]
    · have h2 : min pc.2 m' = m := by rw [← h']
      by_cases hcase : m' < pc.2
      · have hmm : m = m' := by rw [← h2]; exact min_eq_right hcase.le
        subst hmm
        by_cases hl : pc.2 < l
        · have hstep : selectNadirStep (some l, id) pc = (some pc.2, pc.1) := by
            simp only [selectNadirStep]
            rw [if_pos hl]
          obtain ⟨qc, hfind, hfold⟩ := ih pc.2 pc.1 m hrest hcase
          refine ⟨qc, ?_, ?_⟩
          · rw [List.find?_cons_of_neg _ (by simp [ne_of_gt hcase]), hfind]
          · rw [hstep, hfold]
        · have hstep : selectNadirStep (some l, id) pc = (some l, id) := by
            simp only [selectNadirStep]
            rw [if_neg hl]
          obtain ⟨qc, hfind, hfold⟩ := ih l id m hrest hm
          refine ⟨qc, ?_, ?_⟩
          · rw [List.find?_cons_of_neg _ (by simp [ne_of_gt hcase]), hfind]
          · rw [hstep, hfold]
      · have hmm : m = pc.2 := by rw [← h2]; exact min_eq_left (not_lt.mp hcase)
        subst hmm
        have hstep : selectNadirStep (some l, id) pc = (some pc.2, pc.1) := by
          simp only [selectNadirStep]
          rw [if_pos hm]
        refine ⟨pc, ?_, ?_⟩
        · rw [List.find?_cons_of_pos _ (by simp)]
        · rw [hstep, foldl_nadir_no_update rest pc.2 pc.1
            (fun x hx => le_trans (not_lt.mp hcase) (minAngle?_le rest m' hrest x hx))]

lemma select_most_nadir_spec (cols : List (String × ℚ)) (hne : cols ≠ []) :
    ∃ (m : ℚ) (pc : String × ℚ), minAngle? cols = some m ∧
      (∀ x ∈ cols, m ≤ x.2) ∧
      cols.find? (fun x => x.2 == m) = some pc ∧
      select_most_nadir cols = pc.1 := by
  cases cols with
  | nil => exact absurd rfl hne
  | cons pc rest =>
    simp only [select_most_nadir, List.foldl_cons]
    have hstep : selectNadirStep (none, "") pc = (some pc.2, pc.1) := rfl
    rw [hstep]
    rcases hrest : minAngle? rest with _ | m'
    · cases rest with
      | cons y t => simp [minAngle?] at hrest
      | nil =>
        refine ⟨pc.2, pc, by simp [minAngle?], ?_, ?_, by simp⟩
        · intro x hx
          simp only [List.mem_singleton] at hx
          rw [hx]
        · rw [List.find?_cons_of_pos _ (by simp)]
    · by_cases hcase : m' < pc.2
      · obtain ⟨qc, hfind, hfold⟩ := foldl_nadir_update rest pc.2 pc.1 m' hrest hcase
        refine ⟨m', qc, ?_, ?_, ?_, ?_⟩
        · simp only [minAngle?, hrest]
          rw [min_eq_right hcase.le]
        · intro x hx
          rcases List.mem_cons.mp hx with h | h
          · rw [h]; exact hcase.le
          · exact minAngle?_le rest m' hrest x h
        · rw [List.find?_cons_of_neg _ (by simp [ne_of_gt hcase]), hfind]
        · rw [hfold]
      · have hall : ∀ x ∈ rest, pc.2 ≤ x.2 :=
          fun x hx => le_trans (not_lt.mp hcase) (minAngle?_le rest m' hrest x hx)
        rw [foldl_nadir_no_update rest pc.2 pc.1 hall]
        refine ⟨pc.2, pc, ?_, ?_, ?_, rfl⟩
        · simp only [minAngle?, hrest]
          rw [min_eq_left (not_lt.mp hcase)]
        · intro x hx
          rcases List.mem_cons.mp hx with h | h
          · rw [h]
          · exact hall x h
        · rw [List.find?_cons_of_pos _ (by simp)]

/-- Claim C7 (confirmed): for every non-empty insertion-ordered list of
collections annotated with obliquity angles, the most-nadir selection
returns the identifier of the first collection whose angle equals the global
minimum; in particular a tie between two equal minimal angles goes to the
one inserted first. -/
theorem select_most_nadir_first_min :
    (∀ cols : List (String × ℚ), cols ≠ [] →
      ∃ (m : ℚ) (pc : String × ℚ), minAngle? cols = some m ∧
        (∀ x ∈ cols, m ≤ x.2) ∧
        cols.find? (fun x => x.2 == m) = some pc ∧
        select_most_nadir cols = pc.1)
    ∧ select_most_nadir [("A", 5), ("B", 5)] = "A" := by
  constructor
  · exact select_most_nadir_spec
  · simp only [select_most_nadir, List.foldl_cons, List.foldl_nil,
      selectNadirStep]
    norm_num

/-- Witness for claim C7: the selection theorem applied to a concrete
three-element list with a tied minimum. -/
theorem select_most_nadir_first_min_witness :
    ∃ (m : ℚ) (pc : String × ℚ),
      minAngle? [("N1", (3:ℚ)), ("N2", 3), ("N3", 7)] = some m ∧
      (∀ x ∈ [("N1", (3:ℚ)), ("N2", 3), ("N3", 7)], m ≤ x.2) ∧
      List.find? (fun x => x.2 == m) [("N1", (3:ℚ)), ("N2", 3), ("N3", 7)]
        = some pc ∧
      select_most_nadir [("N1", (3:ℚ)), ("N2", 3), ("N3", 7)] = pc.1 :=
  select_most_nadir_first_min.1 _ (by simp)

lemma validate_collections_eq_filter (cols : List (String × CollectionFiles)) :
    (validate_collections cols).1 =
      cols.filter (fun pc => collection_complete pc.2) ∧
    (validate_collections cols).2 =
      (cols.filter (fun pc => !collection_complete pc.2)).map Prod.fst := by
  induction cols with
  | nil => exact ⟨rfl, rfl⟩
  | cons pc rest ih =>
    obtain ⟨q, c⟩ := pc
    rw [validate_collections_cons]
    by_cases hc : collection_complete c
    · rw [if_pos hc]
      constructor <;> simp [List.filter_cons, hc, ih.1, ih.2]
    · rw [if_neg hc]
      constructor <;> simp [List.filter_cons, hc, ih.1, ih.2,
        Bool.not_eq_true]

/-- Claim C9 is false as stated: with zero complete collections the run does
not terminate with a NoUsableCollections diagnostic — it still launches the
DSM and DTM stages and then dies with an unhandled KeyError when looking up
the (still empty) most-nadir identifier. -/
theorem run_zero_collections_claim_C9_false :
    run_after_validation [] = (["generate_dsm", "fit_dtm"],
      Except.error (RunError.keyError ""))
    ∧ RunError.keyError "" ≠ RunError.noUsableCollections := by
  exact ⟨rfl, fun h => RunError.noConfusion h⟩

/-- Claim C9 (amended): with zero complete collections there is no dedicated
check — the DSM and DTM stages still run and the run then fails with a
KeyError on the empty most-nadir identifier, not with a NoUsableCollections
diagnostic; with at least one collection the run proceeds past the lookup;
and validation itself never aborts: it returns the complete collections
together with the skipped identifiers (which main merely logs as warnings). -/
theorem run_zero_collections_behavior :
    run_after_validation [] = (["generate_dsm", "fit_dtm"],
      Except.error (RunError.keyError ""))
    ∧ (∀ cols : List (String × ℚ), cols ≠ [] →
        (run_after_validation cols).2 = Except.ok ())
    ∧ (∀ cols : List (String × CollectionFiles),
        (validate_collections cols).1 =
          cols.filter (fun pc => collection_complete pc.2) ∧
        (validate_collections cols).2 =
          (cols.filter (fun pc => !collection_complete pc.2)).map Prod.fst) := by
  refine ⟨rfl, ?_, validate_collections_eq_filter⟩
  intro cols hne
  obtain ⟨m, pc, hmin, hle, hfind, hsel⟩ := select_most_nadir_spec cols hne
  have hpc : pc ∈ cols := List.mem_of_find?_eq_some hfind
  have hs : (cols.find? (fun c => c.1 == select_most_nadir cols)).isSome := by
    rw [List.find?_isSome]
    exact ⟨pc, hpc, by rw [hsel]; simp⟩
  obtain ⟨q, hq⟩ := Option.isSome_iff_exists.mp hs
  simp only [run_after_validation, hq]

/-- Witness for the amended claim C9: the non-empty case applied to two
concrete collections. -/
theorem run_zero_collections_behavior_witness :
    (run_after_validation [("c1", (10:ℚ)), ("c2", 4)]).2 = Except.ok () :=
  run_zero_collections_behavior.2.1 [("c1", 10), ("c2", 4)] (by simp)

lemma collect_prefixes_mem (l : List String) (p : String) :
    p ∈ collect_prefixes l ↔ ∃ f ∈ l, searchCollectionId f.data = some p := by
  induction l with
  | nil => simp [collect_prefixes]
  | cons f rest ih =>
    rcases h : searchCollectionId f.data with _ | q
    · simp only [collect_prefixes, h]
      rw [ih]
      constructor
      · rintro ⟨g, hg, hgp⟩
        exact ⟨g, List.mem_cons_of_mem _ hg, hgp⟩
      · rintro ⟨g, hg, hgp⟩
        rcases List.mem_cons.mp hg with h1 | h1
        · subst h1
          rw [h] at hgp
          exact absurd hgp (by simp)
        · exact ⟨g, h1, hgp⟩
    · simp only [collect_prefixes, h]
      rw [List.mem_cons]
      constructor
      · rintro (h1 | h1)
        · exact ⟨f, List.mem_cons_self _ _, by rw [h, h1]⟩
        · obtain ⟨g, hg, hgp⟩ := ih.mp (List.mem_filter.mp h1).1
          exact ⟨g, List.mem_cons_of_mem _ hg, hgp⟩
      · rintro ⟨g, hg, hgp⟩
        rcases List.mem_cons.mp hg with h1 | h1
        · subst h1
          rw [h] at hgp
          injection hgp with h2
          exact Or.inl h2.symm
        · by_cases hpq : p = q
          · exact Or.inl hpq
          · refine Or.inr (List.mem_filter.mpr ⟨ih.mpr ⟨g, h1, hgp⟩, ?_⟩)
            simp [hpq]

lemma build_collections_keys (imagery rpc_tree : List (String × String)) :
    (build_collections imagery rpc_tree).map Prod.fst =
      collect_prefixes (walk_filter imagery ".ntf") := by
  rw [build_collections, List.map_map]
  exact List.map_id _

/-- Claim C10 is false as stated: identifiers are harvested only from the
`.ntf` paths, so a `.tar` file carrying the identifier pattern creates no
record even though the claimed pattern matches its name; and the code's
regex additionally demands a hyphen right after the eight digits, so an ntf
file named by the bare thirteen-character pattern is ignored as well. -/
theorem build_collections_claim_C10_false :
    spec_find_identifier ("12ABC34567890-P1BS-a.tar").data = some "12ABC34567890"
    ∧ build_collections [("d", "12ABC34567890-P1BS-a.tar")] [] = []
    ∧ spec_find_identifier ("12ABC34567890.ntf").data = some "12ABC34567890"
    ∧ build_collections [("d", "12ABC34567890.ntf")] [] = [] := by
  refine ⟨?_, ?_, ?_, ?_⟩ <;> decide

/-- Claim C10 (amended): the classifier walks both trees, but collection
identifiers are discovered only in the full paths of `.ntf` files
(case-insensitive extension), by the leftmost match of the pattern two
digits, three uppercase letters, eight digits followed by a hyphen; for each
identifier so found it produces a record grouping the `.ntf`, `.tar` and
`.rpc` paths containing the identifier into pan/msi/swir by the markers
`-P1BS-`, `-M1BS-`, `-A1BS-`, with image/info/rpc given by the extension
list the file came from. -/
theorem build_collections_spec :
    (∀ (imagery rpc_tree : List (String × String)) (p : String),
      p ∈ (build_collections imagery rpc_tree).map Prod.fst ↔
        ∃ f ∈ walk_filter imagery ".ntf", searchCollectionId f.data = some p)
    ∧ build_collections
        [("d", "12ABC34567890-P1BS-a.NTF"), ("d", "12ABC34567890-M1BS-a.ntf"),
         ("d", "12ABC34567890-P1BS-a.tar"), ("d", "12ABC34567890-M1BS-a.tar")]
        [("r", "12ABC34567890-P1BS-a.rpc"), ("r", "12ABC34567890-M1BS-a.rpc")]
      = [("12ABC34567890",
          ⟨⟨some "d/12ABC34567890-P1BS-a.NTF", some "d/12ABC34567890-P1BS-a.tar",
            some "r/12ABC34567890-P1BS-a.rpc"⟩,
           ⟨some "d/12ABC34567890-M1BS-a.ntf", some "d/12ABC34567890-M1BS-a.tar",
            some "r/12ABC34567890-M1BS-a.rpc"⟩,
           ⟨none, none, none⟩⟩)] := by
  constructor
  · intro imagery rpc_tree p
    rw [build_collections_keys]
    exact collect_prefixes_mem _ _
  · decide

end Danesfield
